import Mathlib

/-!
# AnimeVault — verification of the API client, local-storage and page-controller layers

Shallow embedding of the JavaScript sources of the AnimeVault browser
application (Jikan API client `JikanAPI`, the `Storage` wrapper over
localStorage, and the detail-page controller `AnimeDetailPage`).

Modelling conventions, used throughout:
* Times (`Date.now()` values, timestamps) are modelled as `Int`
  milliseconds, so that JavaScript number subtraction is ordinary integer
  subtraction.
* Each invocation of an async operation is treated as happening at one
  instant `now`; the throttle delay of the rate limiter is reflected in
  the computed dispatch time.
* JSON values produced by `response.json()` are modelled by the inductive
  `Json` below, together with JavaScript truthiness (`truthy`).
* `localStorage` writes are assumed to succeed (no quota errors), so
  `Storage.set` returns `true`; a method that returns without writing is
  modelled as returning `none` / leaving the stored value unchanged.
-/

set_option autoImplicit false

/-- JSON values, as returned by `response.json()` and stored by the app.
Numbers are modelled as integers (the fields the claims touch are ids,
counts and timestamps). -/
inductive Json : Type where
  | null : Json
  | bool (b : Bool) : Json
  | num (n : Int) : Json
  | str (s : String) : Json
  | arr (elems : List Json) : Json
  | obj (fields : List (String × Json)) : Json
  deriving Repr

/-- JavaScript truthiness of a JSON value: `null`, `false`, `0` and the
empty string are falsy; arrays and objects are always truthy. -/
def truthy : Json → Bool
  | Json.null => false
  | Json.bool b => b
  | Json.num n => n != 0
  | Json.str s => s ≠ ""
  | Json.arr _ => true
  | Json.obj _ => true

/-- Field lookup `v.f` on a JSON object (`none` models `undefined`). -/
def jGet : Json → String → Option Json
  | Json.obj fields, key => (fields.find? (fun p => p.1 == key)).map Prod.snd
  | _, _ => none

/-! ## Rate limiter (`JikanAPI.rateLimitedRequest`)

```js
async rateLimitedRequest(url) {
    const now = Date.now();
    const timeSinceLastRequest = now - this.lastRequestTime;
    if (timeSinceLastRequest < this.rateLimitDelay) {
        await new Promise(resolve =>
            setTimeout(resolve, this.rateLimitDelay - timeSinceLastRequest));
    }
    this.lastRequestTime = Date.now();
    return fetch(url);
}
```

The synchronous prefix reads `Date.now()` and the shared field
`this.lastRequestTime`; if the elapsed time is below the delay the call
suspends on a timer and resumes at `now + (delay - (now - last))`; only
on resumption (or immediately, when no wait was needed) does it write
`this.lastRequestTime` and dispatch the `fetch`. Timers are modelled as
firing exactly at their deadline. -/

/-- `this.rateLimitDelay` (ms). -/
def rateLimitDelay : Int := 1000

/-- Wake-up time of the `setTimeout` continuation: the call suspends at
`now` for `rateLimitDelay - (now - last)` ms. -/
def rlWake (last now : Int) : Int := now + (rateLimitDelay - (now - last))

/-- Outcome of running the synchronous prefix of `rateLimitedRequest` at
time `now` with shared state `lastRequestTime = last`: either the fetch
is dispatched immediately, or the call is parked until `rlWake`. -/
inductive RLOutcome : Type where
  | dispatched (d : Int) : RLOutcome
  | sleeping (wake : Int) : RLOutcome
  deriving Repr, DecidableEq

/-- Synchronous prefix of `rateLimitedRequest`: the `timeSinceLastRequest`
check. In the `dispatched` case the code also writes
`lastRequestTime := now` before calling `fetch`. -/
def rlSyncPrefix (last now : Int) : RLOutcome :=
  if now - last < rateLimitDelay then RLOutcome.sleeping (rlWake last now)
  else RLOutcome.dispatched now

/-- Dispatch time of one complete `rateLimitedRequest` call started at
`now` (a parked call resumes at its wake time, writes
`lastRequestTime := Date.now()` and dispatches the fetch then). The new
value of `lastRequestTime` equals the returned dispatch time. -/
def rlDispatch (last now : Int) : Int :=
  match rlSyncPrefix last now with
  | RLOutcome.dispatched d => d
  | RLOutcome.sleeping wake => wake

/-- Dispatch times of a sequence of `rateLimitedRequest` calls issued at
the given start times, each threading the updated `lastRequestTime`. -/
def dispatchTimes (last : Int) : List Int → List Int
  | [] => []
  | t :: ts => rlDispatch last t :: dispatchTimes (rlDispatch last t) ts

/-- The start times describe *sequential* callers: the first call starts
no earlier than the instant recorded in `lastRequestTime` (monotone
clock), and each later call is issued only after the previous call's
fetch was dispatched. -/
def seqStarts : Int → List Int → Bool
  | _, [] => true
  | last, t :: ts => decide (last ≤ t) && seqStarts (rlDispatch last t) ts

/-- Consecutive elements of the list are at least `gap` apart. -/
def spacedBy (gap : Int) : List Int → Bool
  | a :: b :: rest => decide (a + gap ≤ b) && spacedBy gap (b :: rest)
  | _ => true

/-- Event-loop trace of **two** `rateLimitedRequest` calls issued in the
same turn (zero caller delay), both starting at time `t` with shared
state `lastRequestTime = last`. The first call runs its synchronous
prefix; if it parks on a timer, the second call's synchronous prefix
runs *before* that timer fires and still observes `lastRequestTime =
last`; both continuations then resume at their wake times, each writing
`lastRequestTime` and dispatching. If the first call dispatches
synchronously, it writes `lastRequestTime := t` before the second
call's prefix runs. Returned: the two fetch dispatch times. -/
def twoConcurrentCalls (last t : Int) : Int × Int :=
  match rlSyncPrefix last t with
  | RLOutcome.dispatched d =>
      match rlSyncPrefix d t with
      | RLOutcome.dispatched d2 => (d, d2)
      | RLOutcome.sleeping wake2 => (d, wake2)
  | RLOutcome.sleeping wake =>
      match rlSyncPrefix last t with
      | RLOutcome.dispatched d2 => (wake, d2)
      | RLOutcome.sleeping wake2 => (wake, wake2)

theorem rlDispatch_lower (last now : Int) :
    last + rateLimitDelay ≤ rlDispatch last now := by
  unfold rlDispatch rlSyncPrefix rlWake
  by_cases hc : now - last < rateLimitDelay
  · simp only [hc, if_pos]
    omega
  · simp only [hc, if_neg, not_false_iff]
    omega

example : rlDispatch 0 0 = 1000 := by decide
example : rlDispatch 0 2500 = 2500 := by decide
example : twoConcurrentCalls 0 0 = (1000, 1000) := by decide
example : twoConcurrentCalls 0 5000 = (5000, 6000) := by decide

/-- C1 (counterexample): two `rateLimitedRequest` calls issued concurrently
with zero caller delay — same event-loop turn, both starting at time `0`
with `lastRequestTime = 0` — both observe the stale `lastRequestTime`,
park on identical timers, and dispatch their fetches at the same instant
`1000`: the inter-dispatch spacing is `0 < 1000`, refuting the claimed
minimum spacing under caller concurrency. -/
theorem rateLimiter_concurrent_zero_gap :
    twoConcurrentCalls 0 0 = (1000, 1000) ∧
    (twoConcurrentCalls 0 0).2 - (twoConcurrentCalls 0 0).1 < rateLimitDelay := by
  constructor
  · decide
  · decide

/-- C1 (amended): when the `rateLimitedRequest` calls execute without
interleaving — each call is issued only after the previous call has
dispatched its fetch, so each observes the `lastRequestTime` written by
its predecessor — consecutive dispatch times are spaced by at least the
fixed 1000 ms throttle interval, for every list of start times. -/
theorem rateLimiter_sequential_spacing (last : Int) (ts : List Int) :
    spacedBy rateLimitDelay (dispatchTimes last ts) = true := by
  induction ts generalizing last with
  | nil => rfl
  | cons t ts ih =>
    cases ts with
    | nil => rfl
    | cons t2 ts2 =>
      have h1 : rlDispatch last t + rateLimitDelay ≤ rlDispatch (rlDispatch last t) t2 :=
        rlDispatch_lower _ _
      have h2 := ih (rlDispatch last t)
      simp only [dispatchTimes] at h2 ⊢
      rw [spacedBy, Bool.and_eq_true, decide_eq_true_iff]
      exact ⟨h1, h2⟩

/-! ## Response cache (`JikanAPI` constructor, `getCachedData`, `setCachedData`)

`this.cache` is a JavaScript `Map` from endpoint strings to
`{data, timestamp}` records. A `Map` iterates in insertion order; `set`
on an existing key updates the value but keeps the key's original
position; `get` does not reorder (so eviction below is insertion-ordered,
not LRU). It is modelled as an association list, oldest insertion
first. -/

/-- The in-memory response cache: `(endpoint key, data, timestamp)`
triples in insertion order. -/
abbrev CacheMap : Type := List (String × Json × Int)

/-- `this.cacheTimeout` (ms): 5 minutes. -/
def cacheTimeout : Int := 300000

/-- `Map.prototype.get`. -/
def mapGet (m : CacheMap) (k : String) : Option (Json × Int) :=
  (List.find? (fun p => p.1 == k) m).map Prod.snd

/-- `Map.prototype.set`: update in place when the key is present
(keeping its position), otherwise append at the end (newest last). -/
def mapSet (m : CacheMap) (k : String) (v : Json × Int) : CacheMap :=
  if List.any m (fun p => p.1 == k) then
    List.map (fun p => if p.1 == k then (k, v.1, v.2) else p) m
  else m ++ [(k, v.1, v.2)]

/-- `Map.prototype.delete`. -/
def mapDelete (m : CacheMap) (k : String) : CacheMap :=
  List.filter (fun p => p.1 != k) m

/-- Number of entries (`Map.prototype.size`). -/
def cacheSize (m : CacheMap) : Nat := List.length m

/--
```js
getCachedData(key) {
    const cached = this.cache.get(key);
    if (cached && (Date.now() - cached.timestamp < this.cacheTimeout)) {
        return cached.data;
    }
    this.cache.delete(key);
    return null;
}
```
Returns the hit (or `none`) together with the updated cache: a fresh
entry is returned unchanged, anything else (missing or aged at least
`cacheTimeout`) is deleted at lookup time. -/
def getCachedData (cache : CacheMap) (key : String) (now : Int) : Option Json × CacheMap :=
  match mapGet cache key with
  | some (d, ts) =>
      if now - ts < cacheTimeout then (some d, cache)
      else (none, mapDelete cache key)
  | none => (none, mapDelete cache key)

/--
```js
setCachedData(key, data) {
    this.cache.set(key, { data, timestamp: Date.now() });
    if (this.cache.size > 100) {
        const firstKey = this.cache.keys().next().value;
        this.cache.delete(firstKey);
    }
}
```
The size-limit step (`if (this.cache.size > 100) ...`): delete the first
key in insertion order when over capacity. -/
def evictIfOver (c : CacheMap) : CacheMap :=
  if 100 < cacheSize c then
    match c with
    | [] => c
    | p :: _ => mapDelete c p.1
  else c

/-- `setCachedData`: insert (or update) the entry, then apply the size
check above. -/
def setCachedData (cache : CacheMap) (key : String) (data : Json) (now : Int) : CacheMap :=
  evictIfOver (mapSet cache key (data, now))

/-! ## Generic request (`JikanAPI.request`)

```js
async request(endpoint, useCache = true) {
    const url = `${this.baseURL}${endpoint}`;
    const cacheKey = endpoint;
    try {
        if (useCache) {
            const cachedData = this.getCachedData(cacheKey);
            if (cachedData) {
                return { success: true, data: cachedData };
            }
        }
        const response = await this.rateLimitedRequest(url);
        if (!response.ok) {
            throw new Error(`HTTP ${response.status}: ${response.statusText}`);
        }
        const data = await response.json();
        if (useCache && data) {
            this.setCachedData(cacheKey, data);
        }
        return { success: true, data };
    } catch (error) {
        return { success: false, error: error.message, endpoint };
    }
}
```
The external `fetch` is abstracted by a `FetchOutcome` parameter: either
the promise rejects (transport error) or a response arrives with a
status, a status text and the outcome of `response.json()`. -/

/-- What the network does for one dispatched `fetch`. -/
inductive FetchOutcome : Type where
  /-- The `fetch` promise rejects (transport failure); `error.message`. -/
  | netError (msg : String) : FetchOutcome
  /-- A response arrives; `body` is the outcome of `response.json()`
  (`Except.error` when the body is not valid JSON and `json()` throws). -/
  | response (status : Nat) (statusText : String) (body : Except String Json) : FetchOutcome

/-- `response.ok`: status in the 2xx range. -/
def responseOk (status : Nat) : Bool := 200 ≤ status && status < 300

/-- The tagged result of `request`: `{success: true, data}` or
`{success: false, error, endpoint}` (the endpoint field is absent in the
guard-clause failures of the wrapper methods, hence the `Option`). -/
inductive RequestResult : Type where
  | success (data : Json) : RequestResult
  | failure (error : String) (endpoint : Option String) : RequestResult

/-- `result.success` of a `RequestResult`. -/
def RequestResult.isSuccess : RequestResult → Bool
  | RequestResult.success _ => true
  | RequestResult.failure _ _ => false

/-- Mutable client state: `this.lastRequestTime` and `this.cache`. -/
structure APIState : Type where
  lastRequestTime : Int
  cache : CacheMap

/-- The network section of `request` (everything after the cache check):
the rate-limited fetch, the `response.ok` guard, `response.json()`, and
the conditional `setCachedData`. Thrown errors are returned as
`Except.error` (to be converted by the surrounding `catch`); the `Bool`
records that a network call was dispatched. -/
def requestNetwork (net : FetchOutcome) (endpoint : String) (useCache : Bool)
    (st : APIState) (now : Int) : Except String RequestResult × APIState × Bool :=
  let st1 : APIState := { st with lastRequestTime := rlDispatch st.lastRequestTime now }
  match net with
  | FetchOutcome.netError msg => (Except.error msg, st1, true)
  | FetchOutcome.response status statusText body =>
      if responseOk status then
        match body with
        | Except.error msg => (Except.error msg, st1, true)
        | Except.ok data =>
            if useCache && truthy data then
              (Except.ok (RequestResult.success data),
               { st1 with cache := setCachedData st1.cache endpoint data now }, true)
            else
              (Except.ok (RequestResult.success data), st1, true)
      else
        (Except.error ("HTTP " ++ toString status ++ ": " ++ statusText), st1, true)

/-- The `catch` clause of `request`: a thrown error becomes
`{success: false, error: error.message, endpoint}`. -/
def requestFinish : Except String RequestResult × APIState × Bool → String →
    RequestResult × APIState × Bool
  | (Except.ok r, st, b), _ => (r, st, b)
  | (Except.error msg, st, b), endpoint =>
      (RequestResult.failure msg (some endpoint), st, b)

/-- One invocation of `request(endpoint, useCache)` at instant `now`:
returns the result, the updated client state, and whether a network call
was dispatched. The cache key is the endpoint string. -/
def request (net : FetchOutcome) (endpoint : String) (useCache : Bool)
    (st : APIState) (now : Int) : RequestResult × APIState × Bool :=
  if useCache then
    match getCachedData st.cache endpoint now with
    | (some d, cache1) =>
        if truthy d then
          (RequestResult.success d, { st with cache := cache1 }, false)
        else
          requestFinish (requestNetwork net endpoint useCache { st with cache := cache1 } now) endpoint
    | (none, cache1) =>
        requestFinish (requestNetwork net endpoint useCache { st with cache := cache1 } now) endpoint
  else
    requestFinish (requestNetwork net endpoint useCache st now) endpoint

/-- `searchAnime(query, page, limit)`: guard clause for a blank query,
then `request(endpoint, false)` — searches are not cached.
`encodeURIComponent` is kept abstract as the parameter `enc`. -/
def searchAnime (enc : String → String) (net : FetchOutcome) (query : String)
    (page limit : Nat) (st : APIState) (now : Int) : RequestResult × APIState × Bool :=
  if query.trim.length == 0 then
    (RequestResult.failure "Search query is required" none, st, false)
  else
    request net
      ("/anime?q=" ++ enc query.trim ++ "&page=" ++ toString page ++ "&limit=" ++
        toString limit ++ "&order_by=score&sort=desc")
      false st now

/-- `getRandomAnime()`: `request('/random/anime', false)` — random
requests are not cached. -/
def getRandomAnime (net : FetchOutcome) (st : APIState) (now : Int) :
    RequestResult × APIState × Bool :=
  request net "/random/anime" false st now

/-- `getAnimeByGenre(genreId, page, limit)`: cached request (default
`useCache = true`). -/
def getAnimeByGenre (net : FetchOutcome) (genreId : Int) (page limit : Nat)
    (st : APIState) (now : Int) : RequestResult × APIState × Bool :=
  request net
    ("/anime?genres=" ++ toString genreId ++ "&page=" ++ toString page ++ "&limit=" ++
      toString limit ++ "&order_by=score&sort=desc")
    true st now

/-! ### Association-list lemmas for the cache -/

theorem mapGet_cons (p : String × Json × Int) (l : CacheMap) (k : String) :
    mapGet (p :: l) k = if p.1 == k then some p.2 else mapGet l k := by
  by_cases hp : p.1 == k
  · simp [mapGet, List.find?_cons_of_pos, hp]
  · simp [mapGet, List.find?_cons_of_neg, hp]

theorem mapGet_append_of_none (m l : CacheMap) (k : String) (h : mapGet m k = none) :
    mapGet (m ++ l) k = mapGet l k := by
  have hfind : List.find? (fun p => p.1 == k) m = none := by
    cases hf : List.find? (fun p => p.1 == k) m with
    | none => rfl
    | some q => rw [mapGet, hf] at h; simp at h
  unfold mapGet
  rw [List.find?_append, hfind, Option.none_or]

theorem mapGet_map_replace (m : CacheMap) (k : String) (v : Json × Int)
    (h : List.any m (fun p => p.1 == k) = true) :
    mapGet (List.map (fun p => if p.1 == k then (k, v.1, v.2) else p) m) k = some v := by
  induction m with
  | nil => simp at h
  | cons p rest ih =>
    rw [List.map_cons]
    by_cases hp : (p.1 == k) = true
    · rw [if_pos hp, mapGet_cons]
      simp
    · have hpb : (p.1 == k) = false := by simpa using hp
      rw [if_neg hp, mapGet_cons, if_neg hp]
      apply ih
      simpa [List.any_cons, hpb] using h

theorem mapGet_eq_none_of_not_any (m : CacheMap) (k : String)
    (hex : ¬ List.any m (fun p => p.1 == k) = true) : mapGet m k = none := by
  unfold mapGet
  rw [List.find?_eq_none.mpr]
  · rfl
  · intro p hp hcon
    exact hex (List.any_eq_true.mpr ⟨p, hp, hcon⟩)

theorem mapGet_mapSet_self (m : CacheMap) (k : String) (v : Json × Int) :
    mapGet (mapSet m k v) k = some v := by
  unfold mapSet
  by_cases hex : List.any m (fun p => p.1 == k) = true
  · rw [if_pos hex]
    exact mapGet_map_replace m k v hex
  · rw [if_neg hex, mapGet_append_of_none m _ k (mapGet_eq_none_of_not_any m k hex),
      mapGet_cons]
    simp

theorem length_mapSet (m : CacheMap) (k : String) (v : Json × Int) :
    (mapSet m k v).length =
      if List.any m (fun p => p.1 == k) then m.length else m.length + 1 := by
  unfold mapSet
  split <;> simp

theorem mapDelete_eq_of_mapGet_none (m : CacheMap) (k : String)
    (h : mapGet m k = none) : mapDelete m k = m := by
  have hfind : List.find? (fun p => p.1 == k) m = none := by
    cases hf : List.find? (fun p => p.1 == k) m with
    | none => rfl
    | some q => rw [mapGet, hf] at h; simp at h
  have hall : ∀ p ∈ m, ((p.1 : String) == k) = false := by
    intro p hp
    have := List.find?_eq_none.mp hfind p hp
    simpa using this
  unfold mapDelete
  rw [List.filter_eq_self.mpr]
  intro p hp
  simpa [bne] using hall p hp

theorem mapGet_mapDelete_ne (m : CacheMap) (j k : String) (h : (j == k) = false) :
    mapGet (mapDelete m j) k = mapGet m k := by
  induction m with
  | nil => rfl
  | cons p l ih =>
    by_cases hpj : p.1 == j
    · have hd : mapDelete (p :: l) j = mapDelete l j := by
        simp [mapDelete, List.filter_cons, bne, hpj]
      have hpk : (p.1 == k) = false := by
        have : p.1 = j := by simpa using hpj
        rw [this]; exact h
      rw [hd, ih, mapGet_cons, hpk, if_neg]
      simp
    · have hd : mapDelete (p :: l) j = p :: mapDelete l j := by
        simp [mapDelete, List.filter_cons, bne, hpj]
      rw [hd, mapGet_cons, mapGet_cons, ih]

theorem length_mapDelete_head (p : String × Json × Int) (l : CacheMap) :
    (mapDelete (p :: l) p.1).length ≤ l.length := by
  have h1 : mapDelete (p :: l) p.1 = List.filter (fun q => q.1 != p.1) l := by
    simp [mapDelete, List.filter_cons]
  rw [h1]
  exact List.length_filter_le _ _

theorem evictIfOver_of_le (c : CacheMap) (h : cacheSize c ≤ 100) :
    evictIfOver c = c := by
  unfold evictIfOver
  rw [if_neg]
  omega

theorem cacheSize_evictIfOver_le (c : CacheMap) (h : cacheSize c ≤ 101) :
    cacheSize (evictIfOver c) ≤ 100 := by
  by_cases hbig : 100 < cacheSize c
  · cases c with
    | nil => simp [cacheSize] at hbig
    | cons p rest =>
        have h2 : evictIfOver (p :: rest) = mapDelete (p :: rest) p.1 := by
          unfold evictIfOver
          rw [if_pos hbig]
        rw [h2]
        have h3 := length_mapDelete_head p rest
        unfold cacheSize at *
        simp only [List.length_cons] at h
        omega
  · rw [evictIfOver_of_le c (by omega)]
    omega

theorem cacheSize_setCachedData_le (m : CacheMap) (k : String) (d : Json) (now : Int)
    (h : cacheSize m ≤ 100) : cacheSize (setCachedData m k d now) ≤ 100 := by
  unfold setCachedData
  apply cacheSize_evictIfOver_le
  unfold cacheSize
  rw [length_mapSet]
  unfold cacheSize at h
  split <;> omega

theorem mapGet_setCachedData_self (m : CacheMap) (k : String) (d : Json) (now : Int)
    (h : cacheSize m ≤ 100) :
    mapGet (setCachedData m k d now) k = some (d, now) := by
  unfold setCachedData
  by_cases hex : List.any m (fun p => p.1 == k) = true
  · rw [evictIfOver_of_le]
    · exact mapGet_mapSet_self m k (d, now)
    · unfold cacheSize at *
      rw [length_mapSet, if_pos hex]
      exact h
  · have hc : mapSet m k (d, now) = m ++ [(k, d, now)] := by
      unfold mapSet
      rw [if_neg hex]
    by_cases hbig : 100 < cacheSize (mapSet m k (d, now))
    · cases hm : m with
      | nil =>
          exfalso
          subst hm
          rw [hc] at hbig
          simp [cacheSize] at hbig
      | cons p rest =>
          subst hm
          have hpk : (p.1 == k) = false := by
            by_contra hcon
            rw [Bool.not_eq_false] at hcon
            exact hex (by simp [List.any_cons, hcon])
          rw [hc] at hbig ⊢
          have h2 : evictIfOver ((p :: rest) ++ [(k, d, now)]) =
              mapDelete ((p :: rest) ++ [(k, d, now)]) p.1 := by
            unfold evictIfOver
            rw [if_pos hbig]
            rfl
          rw [h2, mapGet_mapDelete_ne _ _ _ hpk, ← hc]
          exact mapGet_mapSet_self (p :: rest) k (d, now)
    · rw [evictIfOver_of_le _ (by omega)]
      exact mapGet_mapSet_self m k (d, now)

theorem requestNetwork_dispatches (net : FetchOutcome) (e : String) (uc : Bool)
    (st : APIState) (now : Int) : (requestNetwork net e uc st now).2.2 = true := by
  cases net with
  | netError m => rfl
  | response status text body =>
      unfold requestNetwork
      by_cases hok : responseOk status
      · cases body with
        | error m => simp [hok]
        | ok d => by_cases hc : uc && truthy d <;> simp [hok, hc]
      · simp [hok]

theorem requestNetwork_false_cache (net : FetchOutcome) (e : String)
    (st : APIState) (now : Int) : (requestNetwork net e false st now).2.1.cache = st.cache := by
  cases net with
  | netError m => rfl
  | response status text body =>
      unfold requestNetwork
      by_cases hok : responseOk status
      · cases body with
        | error m => simp [hok]
        | ok d => simp [hok]
      · simp [hok]

theorem requestFinish_state (x : Except String RequestResult × APIState × Bool) (e : String) :
    (requestFinish x e).2 = x.2 := by
  rcases x with ⟨ex, st, b⟩
  cases ex <;> rfl

theorem not_any_of_mapGet_none (m : CacheMap) (k : String) (h : mapGet m k = none) :
    ¬ List.any m (fun p => p.1 == k) = true := by
  intro hcon
  rcases List.any_eq_true.mp hcon with ⟨p, hp, hpk⟩
  have hfind : List.find? (fun p => p.1 == k) m = none := by
    cases hf : List.find? (fun p => p.1 == k) m with
    | none => rfl
    | some q => rw [mapGet, hf] at h; simp at h
  exact (List.find?_eq_none.mp hfind p hp) hpk

theorem request_true_eq (net : FetchOutcome) (e : String) (st : APIState) (now : Int) :
    request net e true st now =
      match getCachedData st.cache e now with
      | (some d, cache1) =>
          if truthy d then (RequestResult.success d, { st with cache := cache1 }, false)
          else requestFinish (requestNetwork net e true { st with cache := cache1 } now) e
      | (none, cache1) =>
          requestFinish (requestNetwork net e true { st with cache := cache1 } now) e := rfl

theorem request_false_eq (net : FetchOutcome) (e : String) (st : APIState) (now : Int) :
    request net e false st now = requestFinish (requestNetwork net e false st now) e := rfl

theorem requestNetwork_ok_shape (net : FetchOutcome) (e : String) (uc : Bool)
    (st : APIState) (now : Int) :
    (∃ d st1, requestNetwork net e uc st now = (Except.ok (RequestResult.success d), st1, true)) ∨
    (∃ m st1, requestNetwork net e uc st now = (Except.error m, st1, true)) := by
  cases net with
  | netError m => right; exact ⟨m, _, rfl⟩
  | response status text body =>
      by_cases hok : responseOk status = true
      · cases body with
        | error m =>
            right
            refine ⟨m, ⟨rlDispatch st.lastRequestTime now, st.cache⟩, ?_⟩
            unfold requestNetwork
            dsimp only
            rw [if_pos hok]
        | ok d =>
            left
            by_cases hcd : (uc && truthy d) = true
            · refine ⟨d, ⟨rlDispatch st.lastRequestTime now, setCachedData st.cache e d now⟩, ?_⟩
              unfold requestNetwork
              dsimp only
              rw [if_pos hok, if_pos hcd]
            · refine ⟨d, ⟨rlDispatch st.lastRequestTime now, st.cache⟩, ?_⟩
              unfold requestNetwork
              dsimp only
              rw [if_pos hok, if_neg hcd]
      · right
        refine ⟨"HTTP " ++ toString status ++ ": " ++ text,
          ⟨rlDispatch st.lastRequestTime now, st.cache⟩, ?_⟩
        unfold requestNetwork
        dsimp only
        rw [if_neg hok]

theorem requestFinish_network_shape (net : FetchOutcome) (e : String) (uc : Bool)
    (st : APIState) (now : Int) :
    (∃ d, (requestFinish (requestNetwork net e uc st now) e).1 = RequestResult.success d) ∨
    (∃ msg, (requestFinish (requestNetwork net e uc st now) e).1 =
      RequestResult.failure msg (some e)) := by
  rcases requestNetwork_ok_shape net e uc st now with ⟨d, st1, hh⟩ | ⟨m, st1, hh⟩
  · left; exact ⟨d, by rw [hh]; rfl⟩
  · right; exact ⟨m, by rw [hh]; rfl⟩

/-- C3: `request` never throws: for every endpoint, `useCache` flag,
client state and network behaviour, the result is either
`{success: true, data}` or a tagged `{success: false, error, endpoint}`
carrying the originating endpoint; in particular a non-2xx status yields
the message `HTTP <status>: <statusText>` and a transport error (or a
`json()` parse failure) yields the thrown message. -/
theorem request_never_throws (net : FetchOutcome) (e : String) (uc : Bool)
    (st : APIState) (now : Int) :
    ((∃ d, (request net e uc st now).1 = RequestResult.success d) ∨
      (∃ msg, (request net e uc st now).1 = RequestResult.failure msg (some e))) ∧
    (∀ msg, (request (FetchOutcome.netError msg) e false st now).1 =
      RequestResult.failure msg (some e)) ∧
    (∀ (status : Nat) (text : String) (d : Json),
      (request (FetchOutcome.response status text (Except.ok d)) e false st now).1 =
        if responseOk status then RequestResult.success d
        else RequestResult.failure ("HTTP " ++ toString status ++ ": " ++ text) (some e)) ∧
    (∀ (status : Nat) (text m : String),
      (request (FetchOutcome.response status text (Except.error m)) e false st now).1 =
        if responseOk status then RequestResult.failure m (some e)
        else RequestResult.failure ("HTTP " ++ toString status ++ ": " ++ text) (some e)) := by
  refine ⟨?_, ?_, ?_, ?_⟩
  · cases uc with
    | false => exact requestFinish_network_shape net e false st now
    | true =>
        rcases hgc : getCachedData st.cache e now with ⟨hit, cache1⟩
        rw [request_true_eq, hgc]
        cases hit with
        | none => exact requestFinish_network_shape net e true _ now
        | some d =>
            dsimp only
            by_cases htr : truthy d = true
            · rw [if_pos htr]
              left
              exact ⟨d, rfl⟩
            · rw [if_neg htr]
              exact requestFinish_network_shape net e true _ now
  · intro msg; rfl
  · intro status text d
    by_cases hok : responseOk status = true
    · rw [if_pos hok, request_false_eq]
      have hn : requestNetwork (FetchOutcome.response status text (Except.ok d)) e false st now =
          (Except.ok (RequestResult.success d),
           { st with lastRequestTime := rlDispatch st.lastRequestTime now }, true) := by
        unfold requestNetwork
        dsimp only
        rw [if_pos hok, if_neg (by simp : ¬((false && truthy d) = true))]
      rw [hn]
      rfl
    · rw [if_neg hok, request_false_eq]
      have hn : requestNetwork (FetchOutcome.response status text (Except.ok d)) e false st now =
          (Except.error ("HTTP " ++ toString status ++ ": " ++ text),
           { st with lastRequestTime := rlDispatch st.lastRequestTime now }, true) := by
        unfold requestNetwork
        dsimp only
        rw [if_neg hok]
      rw [hn]
      rfl
  · intro status text m
    by_cases hok : responseOk status = true
    · rw [if_pos hok, request_false_eq]
      have hn : requestNetwork (FetchOutcome.response status text (Except.error m)) e false st now =
          (Except.error m,
           { st with lastRequestTime := rlDispatch st.lastRequestTime now }, true) := by
        unfold requestNetwork
        dsimp only
        rw [if_pos hok]
      rw [hn]
      rfl
    · rw [if_neg hok, request_false_eq]
      have hn : requestNetwork (FetchOutcome.response status text (Except.error m)) e false st now =
          (Except.error ("HTTP " ++ toString status ++ ": " ++ text),
           { st with lastRequestTime := rlDispatch st.lastRequestTime now }, true) := by
        unfold requestNetwork
        dsimp only
        rw [if_neg hok]
      rw [hn]
      rfl

theorem request_no_cache_cache (net : FetchOutcome) (e : String) (st : APIState) (now : Int) :
    (request net e false st now).2.1.cache = st.cache := by
  rw [request_false_eq, requestFinish_state]
  exact requestNetwork_false_cache net e st now

theorem request_no_cache_dispatch (net : FetchOutcome) (e : String) (st : APIState) (now : Int) :
    (request net e false st now).2.2 = true := by
  rw [request_false_eq, requestFinish_state]
  exact requestNetwork_dispatches net e false st now

/-- C8: `searchAnime` and `getRandomAnime` never touch the response
cache: the cache is identical before and after the call (no lookup-time
eviction, no insertion), and whenever a result is produced beyond the
blank-query guard it comes from an actual network dispatch, never from
the cache. -/
theorem search_random_bypass_cache (enc : String → String) (net : FetchOutcome)
    (query : String) (page limit : Nat) (st : APIState) (now : Int) :
    (searchAnime enc net query page limit st now).2.1.cache = st.cache ∧
    (searchAnime enc net query page limit st now).2.2 = !(query.trim.length == 0) ∧
    (getRandomAnime net st now).2.1.cache = st.cache ∧
    (getRandomAnime net st now).2.2 = true := by
  refine ⟨?_, ?_, ?_, ?_⟩
  · unfold searchAnime
    by_cases hq : (query.trim.length == 0) = true
    · rw [if_pos hq]
    · rw [if_neg hq]
      exact request_no_cache_cache net _ st now
  · unfold searchAnime
    by_cases hq : (query.trim.length == 0) = true
    · rw [if_pos hq, hq]
      rfl
    · have hqb : (query.trim.length == 0) = false := by simpa using hq
      rw [if_neg hq, hqb, request_no_cache_dispatch]
      rfl
  · exact request_no_cache_cache net "/random/anime" st now
  · exact request_no_cache_dispatch net "/random/anime" st now

/-- C2 (amended): for an endpoint with no cached entry, a `request` with
caching enabled whose network fetch succeeds with a **truthy** payload
caches it; while the entry's age is below 5 minutes a second cached
request returns the cached payload, changes nothing, and dispatches no
network call; once the age reaches 5 minutes the lookup itself removes
the entry and the request dispatches a new network call. -/
theorem cache_window_behavior (st : APIState) (e text : String) (status : Nat)
    (d : Json) (t1 t2 : Int)
    (h0 : mapGet st.cache e = none)
    (h1 : cacheSize st.cache ≤ 100)
    (h2 : responseOk status = true)
    (h3 : truthy d = true) :
    ∃ st1 : APIState,
      request (FetchOutcome.response status text (Except.ok d)) e true st t1 =
        (RequestResult.success d, st1, true) ∧
      st1.cache = setCachedData st.cache e d t1 ∧
      (t2 - t1 < cacheTimeout →
        ∀ net2, request net2 e true st1 t2 = (RequestResult.success d, st1, false)) ∧
      (cacheTimeout ≤ t2 - t1 →
        (∀ net2, (request net2 e true st1 t2).2.2 = true) ∧
        getCachedData st1.cache e t2 = (none, mapDelete st1.cache e)) := by
  have hgc1 : getCachedData st.cache e t1 = (none, st.cache) := by
    unfold getCachedData
    rw [h0, mapDelete_eq_of_mapGet_none st.cache e h0]
  refine ⟨⟨rlDispatch st.lastRequestTime t1, setCachedData st.cache e d t1⟩, ?_, rfl, ?_, ?_⟩
  · rw [request_true_eq, hgc1]
    dsimp only
    have hn : requestNetwork (FetchOutcome.response status text (Except.ok d)) e true
        { st with cache := st.cache } t1 =
        (Except.ok (RequestResult.success d),
         ⟨rlDispatch st.lastRequestTime t1, setCachedData st.cache e d t1⟩, true) := by
      unfold requestNetwork
      dsimp only
      rw [if_pos h2, if_pos (by rw [h3, Bool.and_true] : (true && truthy d) = true)]
    rw [hn]
    rfl
  · intro hfresh net2
    have hget1 : mapGet (setCachedData st.cache e d t1) e = some (d, t1) :=
      mapGet_setCachedData_self st.cache e d t1 h1
    have hgc2 : getCachedData (setCachedData st.cache e d t1) e t2 =
        (some d, setCachedData st.cache e d t1) := by
      unfold getCachedData
      rw [hget1]
      dsimp only
      rw [if_pos hfresh]
    rw [request_true_eq]
    dsimp only
    rw [hgc2]
    dsimp only
    rw [if_pos h3]
  · intro hstale
    have hget1 : mapGet (setCachedData st.cache e d t1) e = some (d, t1) :=
      mapGet_setCachedData_self st.cache e d t1 h1
    have hgc2 : getCachedData (setCachedData st.cache e d t1) e t2 =
        (none, mapDelete (setCachedData st.cache e d t1) e) := by
      unfold getCachedData
      rw [hget1]
      dsimp only
      rw [if_neg (by omega : ¬ t2 - t1 < cacheTimeout)]
    constructor
    · intro net2
      rw [request_true_eq]
      dsimp only
      rw [hgc2]
      dsimp only
      rw [requestFinish_state]
      exact requestNetwork_dispatches net2 e true _ t2
    · exact hgc2

/-- C2 (witness for the amended theorem): concrete run — empty cache,
successful truthy fetch of `/anime/20` at `t = 0`, re-requested at
`t = 1000` (inside the window) and, in the stale conjunct, at an age of
at least 5 minutes. -/
theorem cache_window_behavior_witness :
    ∃ st1 : APIState,
      request (FetchOutcome.response 200 "OK" (Except.ok (Json.obj [("data", Json.num 20)])))
          "/anime/20" true (APIState.mk 0 []) 0 =
        (RequestResult.success (Json.obj [("data", Json.num 20)]), st1, true) ∧
      st1.cache = setCachedData [] "/anime/20" (Json.obj [("data", Json.num 20)]) 0 ∧
      ((1000 : Int) - 0 < cacheTimeout →
        ∀ net2, request net2 "/anime/20" true st1 1000 =
          (RequestResult.success (Json.obj [("data", Json.num 20)]), st1, false)) ∧
      (cacheTimeout ≤ (1000 : Int) - 0 →
        (∀ net2, (request net2 "/anime/20" true st1 1000).2.2 = true) ∧
        getCachedData st1.cache "/anime/20" 1000 = (none, mapDelete st1.cache "/anime/20")) :=
  cache_window_behavior (APIState.mk 0 []) "/anime/20" "OK" 200
    (Json.obj [("data", Json.num 20)]) 0 1000 rfl (by decide) (by decide) rfl

/-- C2 (counterexample to the claim as stated): a successful fetch whose
JSON payload is `null` (falsy) is **not** cached — `if (useCache && data)`
fails — so a second request to the same endpoint 1 second later (well
inside the 5-minute window) dispatches another network call instead of
returning a cached payload. -/
theorem cache_falsy_payload_refetch :
    (request (FetchOutcome.response 200 "OK" (Except.ok Json.null)) "/anime/1" true
        (APIState.mk 0 []) 0).1 = RequestResult.success Json.null ∧
    ((request (FetchOutcome.response 200 "OK" (Except.ok Json.null)) "/anime/1" true
        (APIState.mk 0 []) 0).2.1).cache = [] ∧
    (request (FetchOutcome.response 200 "OK" (Except.ok Json.null)) "/anime/1" true
        (request (FetchOutcome.response 200 "OK" (Except.ok Json.null)) "/anime/1" true
          (APIState.mk 0 []) 0).2.1 1000).2.2 = true :=
  ⟨rfl, rfl, rfl⟩

/-- C7: after `setCachedData` on a cache that respects the 100-entry
bound (with pairwise-distinct keys, as a JS `Map` guarantees), the cache
still holds at most 100 entries; and when inserting a fresh key into a
full cache, the evicted entry is exactly the oldest-inserted one (the
head of the insertion-ordered list), the rest being kept in order with
the new entry appended. -/
theorem setCachedData_bounded (cache : CacheMap) (key : String) (d : Json) (now : Int)
    (h1 : cacheSize cache ≤ 100)
    (h2 : (cache.map (fun p => p.1)).Nodup) :
    cacheSize (setCachedData cache key d now) ≤ 100 ∧
    (cacheSize cache = 100 → mapGet cache key = none →
      setCachedData cache key d now = cache.tail ++ [(key, d, now)]) := by
  constructor
  · exact cacheSize_setCachedData_le cache key d now h1
  · intro hfull hnone
    have hex : ¬ List.any cache (fun p => p.1 == key) = true :=
      not_any_of_mapGet_none cache key hnone
    have hc : mapSet cache key (d, now) = cache ++ [(key, d, now)] := by
      unfold mapSet
      rw [if_neg hex]
    cases cache with
    | nil => simp [cacheSize] at hfull
    | cons p rest =>
        have hlen : 100 < cacheSize ((p :: rest) ++ [(key, d, now)]) := by
          unfold cacheSize at *
          rw [List.length_append]
          simp only [List.length_cons] at hfull ⊢
          omega
        unfold setCachedData
        rw [hc]
        have hev : evictIfOver ((p :: rest) ++ [(key, d, now)]) =
            mapDelete ((p :: rest) ++ [(key, d, now)]) p.1 := by
          unfold evictIfOver
          rw [if_pos hlen]
          rfl
        rw [hev]
        have hrest : ∀ q ∈ rest, ((q.1 : String) != p.1) = true := by
          intro q hq
          rw [List.map_cons, List.nodup_cons] at h2
          have hne : q.1 ≠ p.1 := by
            intro heq
            exact h2.1 (heq ▸ List.mem_map_of_mem _ hq)
          simpa using hne
        have hkey : ((key : String) != p.1) = true := by
          have hne : p.1 ≠ key := by
            intro heq
            exact hex (by simp [List.any_cons, heq])
          simpa using (Ne.symm hne)
        unfold mapDelete
        rw [List.filter_append]
        rw [List.filter_cons, if_neg (by simp : ¬((p.1 != p.1) = true))]
        rw [List.filter_eq_self.mpr hrest]
        rw [List.filter_cons, if_pos hkey]
        rfl

/-- C7 (witness): a one-entry cache with a distinct new key. -/
theorem setCachedData_bounded_witness :
    cacheSize (setCachedData [("a", Json.null, 0)] "b" (Json.num 1) 5) ≤ 100 ∧
    (cacheSize [(("a" : String), Json.null, (0 : Int))] = 100 →
      mapGet [(("a" : String), Json.null, (0 : Int))] "b" = none →
      setCachedData [("a", Json.null, 0)] "b" (Json.num 1) 5 =
        List.tail [(("a" : String), Json.null, (0 : Int))] ++ [("b", Json.num 1, 5)]) :=
  setCachedData_bounded [("a", Json.null, 0)] "b" (Json.num 1) 5 (by decide) (by decide)

/-! ## Local storage (`Storage` in the storage module)

Favorites and search history are stored as JSON arrays under fixed keys;
`Storage.get`/`Storage.set` (de)serialize the whole collection. Writes
are modelled as succeeding (`set` returns `true`); a method that returns
before calling `set` leaves the stored collection untouched, which is
modelled by returning `none`. `new Date().toISOString()` timestamps are
modelled as the numeric instant `now`. -/

/-- JS `String.prototype.trim()`: strip leading and trailing whitespace,
modelled on the character list. -/
def jsTrim (s : String) : String :=
  String.mk (((s.data.dropWhile Char.isWhitespace).reverse.dropWhile Char.isWhitespace).reverse)

/-- JS `String.prototype.toLowerCase()` (ASCII range, which covers the
catalogue's search terms). -/
def jsToLower (s : String) : String := String.mk (s.data.map Char.toLower)

/-- An anime record as received from the API; the fields are exactly the
ones `addFavorite` projects. `mal_id` is the numeric MyAnimeList id. -/
structure AnimeRecord : Type where
  mal_id : Int
  title : Json
  title_english : Json
  images : Json
  score : Json
  year : Json
  «type» : Json
  status : Json
  episodes : Json
  synopsis : Json
  genres : Json
  deriving Repr

/-- One stored favorite: the projected record fields plus `added_date`. -/
structure FavoriteEntry : Type where
  mal_id : Int
  title : Json
  title_english : Json
  images : Json
  score : Json
  year : Json
  «type» : Json
  status : Json
  episodes : Json
  synopsis : Json
  genres : Json
  added_date : Int
  deriving Repr

/-- The `favoriteData` projection built inside `addFavorite`. -/
def favoriteData (anime : AnimeRecord) (now : Int) : FavoriteEntry :=
  { mal_id := anime.mal_id
    title := anime.title
    title_english := anime.title_english
    images := anime.images
    score := anime.score
    year := anime.year
    «type» := anime.«type»
    status := anime.status
    episodes := anime.episodes
    synopsis := anime.synopsis
    genres := anime.genres
    added_date := now }

/--
```js
addFavorite(anime) {
    const favorites = this.getFavorites();
    const exists = favorites.find(fav => fav.mal_id === anime.mal_id);
    if (exists) {
        return false; // Already exists
    }
    const favoriteData = { ... };
    favorites.unshift(favoriteData); // Add to beginning
    if (favorites.length > 100) {
        favorites.pop();
    }
    return this.set(this.keys.FAVORITES, favorites);
}
```
Returns the `false`/`true` result together with the stored list after
the call (unchanged when the id already exists). -/
def addFavorite (anime : AnimeRecord) (now : Int) (favorites : List FavoriteEntry) :
    Bool × List FavoriteEntry :=
  if favorites.any (fun fav => fav.mal_id == anime.mal_id) then
    (false, favorites)
  else
    if 100 < (favoriteData anime now :: favorites).length then
      (true, (favoriteData anime now :: favorites).dropLast)
    else
      (true, favoriteData anime now :: favorites)

/-- One stored search-history entry: normalized term, the original
trimmed casing, and the timestamp. -/
structure SearchHistoryEntry : Type where
  term : String
  originalTerm : String
  timestamp : Int
  deriving Repr, DecidableEq

/--
```js
addSearchTerm(term) {
    if (!term || term.trim().length < 2) return;
    const history = this.getSearchHistory();
    const cleanTerm = term.trim().toLowerCase();
    const filtered = history.filter(item => item.term !== cleanTerm);
    filtered.unshift({ term: cleanTerm, originalTerm: term.trim(),
                       timestamp: new Date().toISOString() });
    const limited = filtered.slice(0, 20);
    return this.set(this.keys.SEARCH_HISTORY, limited);
}
```
`none` models the early `return` (no write: the stored history is left
unchanged); `some` carries the list written to storage. -/
def addSearchTerm (term : String) (now : Int) (history : List SearchHistoryEntry) :
    Option (List SearchHistoryEntry) :=
  if (jsTrim term).length < 2 then none
  else
    some ((SearchHistoryEntry.mk (jsToLower (jsTrim term)) (jsTrim term) now ::
      history.filter (fun item => item.term != jsToLower (jsTrim term))).take 20)

/-- C4: adding an anime whose `mal_id` is already present returns
`false` and stores nothing — the favorites list is unchanged. -/
theorem addFavorite_duplicate_noop (anime : AnimeRecord) (now : Int)
    (favorites : List FavoriteEntry)
    (h : anime.mal_id ∈ favorites.map FavoriteEntry.mal_id) :
    addFavorite anime now favorites = (false, favorites) := by
  unfold addFavorite
  rw [if_pos]
  rcases List.mem_map.mp h with ⟨fav, hfav, hid⟩
  exact List.any_eq_true.mpr ⟨fav, hfav, by simp [hid]⟩

/-- C4 (witness): the second add of the same id (`20`) is a no-op. -/
theorem addFavorite_duplicate_noop_witness :
    addFavorite (AnimeRecord.mk 20 (Json.str "Naruto") Json.null Json.null Json.null
        Json.null Json.null Json.null Json.null Json.null Json.null) 5
      [favoriteData (AnimeRecord.mk 20 (Json.str "Naruto") Json.null Json.null Json.null
        Json.null Json.null Json.null Json.null Json.null Json.null) 0] =
    (false,
      [favoriteData (AnimeRecord.mk 20 (Json.str "Naruto") Json.null Json.null Json.null
        Json.null Json.null Json.null Json.null Json.null Json.null) 0]) :=
  addFavorite_duplicate_noop _ 5 _ (by simp [favoriteData])

/-- C5: starting from a stored list of at most 100 favorites, the list
after `addFavorite` still has at most 100 entries; when the id is new,
the projected entry is placed first, and the previous last (oldest)
entry is dropped exactly when the list was already at 100. -/
theorem addFavorite_capacity (anime : AnimeRecord) (now : Int)
    (favorites : List FavoriteEntry) (h1 : favorites.length ≤ 100) :
    (addFavorite anime now favorites).2.length ≤ 100 ∧
    ((favorites.all fun fav => fav.mal_id != anime.mal_id) = true →
      (addFavorite anime now favorites).2 =
        favoriteData anime now ::
          (if favorites.length ≤ 99 then favorites else favorites.dropLast)) := by
  constructor
  · unfold addFavorite
    by_cases hex : favorites.any (fun fav => fav.mal_id == anime.mal_id) = true
    · rw [if_pos hex]
      exact h1
    · rw [if_neg hex]
      by_cases hb : 100 < (favoriteData anime now :: favorites).length
      · rw [if_pos hb]
        dsimp only
        rw [List.length_dropLast]
        simp only [List.length_cons]
        omega
      · rw [if_neg hb]
        simp only [List.length_cons] at hb ⊢
        omega
  · intro hall
    have hex : ¬ favorites.any (fun fav => fav.mal_id == anime.mal_id) = true := by
      intro hcon
      rcases List.any_eq_true.mp hcon with ⟨fav, hfav, hid⟩
      have hne := List.all_eq_true.mp hall fav hfav
      rw [bne_iff_ne] at hne
      exact hne (by simpa using hid)
    unfold addFavorite
    rw [if_neg hex]
    by_cases hlen : favorites.length ≤ 99
    · rw [if_neg (by simp only [List.length_cons]; omega), if_pos hlen]
    · have h100 : favorites.length = 100 := by omega
      rw [if_pos (by simp only [List.length_cons]; omega), if_neg hlen]
      dsimp only
      cases favorites with
      | nil => simp at h100
      | cons q qs => rfl

/-- C5 (witness): adding to an empty list keeps the bound and places the
new entry first. -/
theorem addFavorite_capacity_witness :
    (addFavorite (AnimeRecord.mk 1 Json.null Json.null Json.null Json.null
        Json.null Json.null Json.null Json.null Json.null Json.null) 7 []).2.length ≤ 100 ∧
    ((List.all ([] : List FavoriteEntry) fun fav => fav.mal_id !=
        (AnimeRecord.mk 1 Json.null Json.null Json.null Json.null Json.null Json.null
          Json.null Json.null Json.null Json.null).mal_id) = true →
      (addFavorite (AnimeRecord.mk 1 Json.null Json.null Json.null Json.null
          Json.null Json.null Json.null Json.null Json.null Json.null) 7 []).2 =
        favoriteData (AnimeRecord.mk 1 Json.null Json.null Json.null Json.null
          Json.null Json.null Json.null Json.null Json.null Json.null) 7 ::
          (if ([] : List FavoriteEntry).length ≤ 99 then ([] : List FavoriteEntry)
           else ([] : List FavoriteEntry).dropLast)) :=
  addFavorite_capacity _ 7 [] (by decide)

/-- C10: a term whose trimmed length is below 2 (empty, single
character, whitespace-only) makes `addSearchTerm` return before any
write: no list is stored and the persisted history is unchanged. -/
theorem addSearchTerm_short_noop (term : String) (now : Int)
    (history : List SearchHistoryEntry) (h : (jsTrim term).length < 2) :
    addSearchTerm term now history = none := by
  unfold addSearchTerm
  rw [if_pos h]

/-- C10 (witness): a whitespace-padded single character is rejected. -/
theorem addSearchTerm_short_noop_witness :
    addSearchTerm " a " 0 [SearchHistoryEntry.mk "naruto" "Naruto" 0] = none :=
  addSearchTerm_short_noop " a " 0 [SearchHistoryEntry.mk "naruto" "Naruto" 0] (by decide)

/-- C6: for a term of trimmed length at least 2, `addSearchTerm` writes
the list obtained by normalizing (trim + lowercase), dropping any entry
with the same normalized term, prepending a new entry that keeps the
original trimmed casing, and truncating to 20; the written list has at
most 20 entries and exactly one entry for the normalized term. Adding
"Naruto" then "naruto" ends with the single entry
`{term: "naruto", originalTerm: "naruto"}` carrying the later
timestamp. -/
theorem addSearchTerm_normalizes (term : String) (now t1 t2 : Int)
    (history : List SearchHistoryEntry)
    (h : 2 ≤ (jsTrim term).length) :
    addSearchTerm term now history =
      some ((SearchHistoryEntry.mk (jsToLower (jsTrim term)) (jsTrim term) now ::
        history.filter (fun i => i.term != jsToLower (jsTrim term))).take 20) ∧
    ((SearchHistoryEntry.mk (jsToLower (jsTrim term)) (jsTrim term) now ::
        history.filter (fun i => i.term != jsToLower (jsTrim term))).take 20).length ≤ 20 ∧
    List.countP (fun i => i.term == jsToLower (jsTrim term))
      ((SearchHistoryEntry.mk (jsToLower (jsTrim term)) (jsTrim term) now ::
        history.filter (fun i => i.term != jsToLower (jsTrim term))).take 20) = 1 ∧
    addSearchTerm "Naruto" t1 [] = some [SearchHistoryEntry.mk "naruto" "Naruto" t1] ∧
    addSearchTerm "naruto" t2 [SearchHistoryEntry.mk "naruto" "Naruto" t1] =
      some [SearchHistoryEntry.mk "naruto" "naruto" t2] := by
  refine ⟨?_, ?_, ?_, rfl, rfl⟩
  · unfold addSearchTerm
    rw [if_neg (by omega)]
  · exact List.length_take_le 20 _
  · show List.countP _
      ((SearchHistoryEntry.mk (jsToLower (jsTrim term)) (jsTrim term) now ::
        history.filter (fun i => i.term != jsToLower (jsTrim term))).take (19 + 1)) = 1
    rw [List.take_succ_cons, List.countP_cons]
    have hzero : List.countP (fun i => i.term == jsToLower (jsTrim term))
        ((history.filter (fun i => i.term != jsToLower (jsTrim term))).take 19) = 0 := by
      rw [List.countP_eq_zero]
      intro a ha
      have ha' := List.mem_of_mem_take ha
      have hpred := (List.mem_filter.mp ha').2
      rw [bne_iff_ne] at hpred
      simp [hpred]
    rw [hzero]
    simp

/-- C6 (witness): a concrete run with term "One Piece" on an empty
history, plus the Naruto-then-naruto scenario at timestamps 1 and 2. -/
theorem addSearchTerm_normalizes_witness :
    addSearchTerm "One Piece" 3 [] =
      some ((SearchHistoryEntry.mk (jsToLower (jsTrim "One Piece")) (jsTrim "One Piece") 3 ::
        List.filter (fun i => i.term != jsToLower (jsTrim "One Piece")) []).take 20) ∧
    ((SearchHistoryEntry.mk (jsToLower (jsTrim "One Piece")) (jsTrim "One Piece") 3 ::
        List.filter (fun i => i.term != jsToLower (jsTrim "One Piece")) []).take 20).length ≤ 20 ∧
    List.countP (fun i => i.term == jsToLower (jsTrim "One Piece"))
      ((SearchHistoryEntry.mk (jsToLower (jsTrim "One Piece")) (jsTrim "One Piece") 3 ::
        List.filter (fun i => i.term != jsToLower (jsTrim "One Piece")) []).take 20) = 1 ∧
    addSearchTerm "Naruto" 1 [] = some [SearchHistoryEntry.mk "naruto" "Naruto" 1] ∧
    addSearchTerm "naruto" 2 [SearchHistoryEntry.mk "naruto" "Naruto" 1] =
      some [SearchHistoryEntry.mk "naruto" "naruto" 2] :=
  addSearchTerm_normalizes "One Piece" 3 1 2 [] (by decide)

/-! ## Detail page (`AnimeDetailPage.loadRecommendations`,
`loadSimilarAnimeByGenre`, `showFallbackRecommendations`)

The rendering functions are modelled by what they put into the
recommendations container: the API recommendations, the genre-similarity
cards, or the hard-coded popular list. The outcomes of the two network
calls (`getAnimeRecommendations`, `getAnimeByGenre` on the first genre)
are passed in as `RequestResult` parameters; `this.animeData.genres` and
`this.animeId` are the other inputs. A non-array `result.data.data`
behaves like the code: the `length > 0` guard fails (or the `forEach`
throws into the `catch`), so the fallback runs either way. -/

/-- `anime.mal_id` read off a JSON record (`none` when absent or not a
number, in which case the strict comparison `!==` is always true). -/
def jMalId (v : Json) : Option Int :=
  match jGet v "mal_id" with
  | some (Json.num n) => some n
  | _ => none

/-- `rec.entry`, kept only when truthy (`if (rec.entry)`). -/
def entryOf (r : Json) : Option Json :=
  match jGet r "entry" with
  | some e => if truthy e then some e else none
  | none => none

/-- One item of the hard-coded fallback list. `score10` is the source's
decimal score in tenths (9.0 is stored as 90), keeping the model in
integers. -/
structure FallbackAnime : Type where
  mal_id : Int
  title : String
  image_url : String
  score10 : Int
  deriving Repr, DecidableEq

/-- The static `fallbackAnime` list of `showFallbackRecommendations`. -/
def fallbackAnime : List FallbackAnime :=
  [⟨16498, "Attack on Titan", "https://cdn.myanimelist.net/images/anime/10/47347.jpg", 90⟩,
   ⟨11757, "Sword Art Online", "https://cdn.myanimelist.net/images/anime/11/39717.jpg", 72⟩,
   ⟨20, "Naruto", "https://cdn.myanimelist.net/images/anime/13/17405.jpg", 83⟩,
   ⟨1535, "Death Note", "https://cdn.myanimelist.net/images/anime/9/9453.jpg", 90⟩,
   ⟨5114, "Fullmetal Alchemist: Brotherhood",
     "https://cdn.myanimelist.net/images/anime/1223/96541.jpg", 91⟩,
   ⟨31964, "Boku no Hero Academia", "https://cdn.myanimelist.net/images/anime/10/78745.jpg", 79⟩]

/-- What ends up rendered in the recommendations container. -/
inductive RenderOutcome : Type where
  | recommendations (cards : List Json) : RenderOutcome
  | genreSimilar (cards : List Json) : RenderOutcome
  | staticFallback : RenderOutcome
  deriving Repr

/-- `loadSimilarAnimeByGenre(container)`: with a non-empty genre list,
fetch anime of the first genre; render the up-to-6 results that are not
the current anime; whenever that yields nothing (no genres, failed
request, missing/empty/non-array data, or everything filtered out),
`showFallbackRecommendations` renders the static list. -/
def loadSimilarAnimeByGenre (animeId : Int) (genres : List Json)
    (genreResult : RequestResult) : RenderOutcome :=
  match genres with
  | [] => RenderOutcome.staticFallback
  | _ :: _ =>
      match genreResult with
      | RequestResult.success data =>
          match jGet data "data" with
          | some (Json.arr items) =>
              if 0 < items.length then
                if 0 < ((items.take 6).filter (fun a => jMalId a != some animeId)).length then
                  RenderOutcome.genreSimilar
                    ((items.take 6).filter (fun a => jMalId a != some animeId))
                else RenderOutcome.staticFallback
              else RenderOutcome.staticFallback
          | some _ => RenderOutcome.staticFallback
          | none => RenderOutcome.staticFallback
      | RequestResult.failure _ _ => RenderOutcome.staticFallback

/-- `loadRecommendations()`: render the up-to-6 recommendation entries
when the endpoint succeeds with a non-empty `data` array; otherwise (and
on a caught error) fall back to `loadSimilarAnimeByGenre`. -/
def loadRecommendations (animeId : Int) (genres : List Json)
    (recResult genreResult : RequestResult) : RenderOutcome :=
  match recResult with
  | RequestResult.success data =>
      match jGet data "data" with
      | some (Json.arr recs) =>
          if 0 < recs.length then
            RenderOutcome.recommendations ((recs.take 6).filterMap entryOf)
          else loadSimilarAnimeByGenre animeId genres genreResult
      | some _ => loadSimilarAnimeByGenre animeId genres genreResult
      | none => loadSimilarAnimeByGenre animeId genres genreResult
  | RequestResult.failure _ _ => loadSimilarAnimeByGenre animeId genres genreResult

/-- C9: whenever the recommendations endpoint fails or returns no
entries, `loadRecommendations` runs the genre-similarity fallback; and
whenever that fallback has no usable result (no genres, failed genre
request, or every candidate filtered out), the static popular list — a
non-empty list of 6 — is rendered, so the section is never left blank
by a single upstream failure. -/
theorem recommendations_fallback_chain (animeId : Int) (genres : List Json)
    (recData : Json) (genreResult : RequestResult) (msg : String) (ep : Option String)
    (items : List Json) :
    (loadRecommendations animeId genres (RequestResult.failure msg ep) genreResult =
      loadSimilarAnimeByGenre animeId genres genreResult) ∧
    (jGet recData "data" = none →
      loadRecommendations animeId genres (RequestResult.success recData) genreResult =
        loadSimilarAnimeByGenre animeId genres genreResult) ∧
    (jGet recData "data" = some (Json.arr []) →
      loadRecommendations animeId genres (RequestResult.success recData) genreResult =
        loadSimilarAnimeByGenre animeId genres genreResult) ∧
    (loadSimilarAnimeByGenre animeId [] genreResult = RenderOutcome.staticFallback) ∧
    (loadSimilarAnimeByGenre animeId genres (RequestResult.failure msg ep) =
      RenderOutcome.staticFallback) ∧
    (∀ genreData, jGet genreData "data" = some (Json.arr items) →
      ((items.take 6).filter (fun a => jMalId a != some animeId)).length = 0 →
      loadSimilarAnimeByGenre animeId genres (RequestResult.success genreData) =
        RenderOutcome.staticFallback) ∧
    fallbackAnime.length = 6 := by
  refine ⟨rfl, ?_, ?_, rfl, ?_, ?_, rfl⟩
  · intro h
    unfold loadRecommendations
    dsimp only
    rw [h]
  · intro h
    unfold loadRecommendations
    dsimp only
    rw [h]
    rfl
  · cases genres with
    | nil => rfl
    | cons g gs => rfl
  · intro genreData hdata hkept
    cases genres with
    | nil => rfl
    | cons g gs =>
        unfold loadSimilarAnimeByGenre
        dsimp only
        rw [hdata]
        dsimp only
        by_cases hi : 0 < items.length
        · rw [if_pos hi, if_neg (by omega)]
        · rw [if_neg hi]

/-- C9 (witness): concrete failing recommendations result, one genre,
and a genre result whose only candidate is the current anime itself
(filtered out), exercising every hypothesis of the chain. -/
theorem recommendations_fallback_chain_witness :
    (loadRecommendations 20 [Json.obj [("mal_id", Json.num 1), ("name", Json.str "Action")]]
        (RequestResult.failure "HTTP 500: Internal Server Error" (some "/anime/20/recommendations"))
        (RequestResult.failure "HTTP 500: Internal Server Error" (some "/anime?genres=1")) =
      loadSimilarAnimeByGenre 20 [Json.obj [("mal_id", Json.num 1), ("name", Json.str "Action")]]
        (RequestResult.failure "HTTP 500: Internal Server Error" (some "/anime?genres=1"))) ∧
    (jGet (Json.obj [("data", Json.arr [])]) "data" = none →
      loadRecommendations 20 [Json.obj [("mal_id", Json.num 1), ("name", Json.str "Action")]]
          (RequestResult.success (Json.obj [("data", Json.arr [])]))
          (RequestResult.failure "HTTP 500: Internal Server Error" (some "/anime?genres=1")) =
        loadSimilarAnimeByGenre 20 [Json.obj [("mal_id", Json.num 1), ("name", Json.str "Action")]]
          (RequestResult.failure "HTTP 500: Internal Server Error" (some "/anime?genres=1"))) ∧
    (jGet (Json.obj [("data", Json.arr [])]) "data" = some (Json.arr []) →
      loadRecommendations 20 [Json.obj [("mal_id", Json.num 1), ("name", Json.str "Action")]]
          (RequestResult.success (Json.obj [("data", Json.arr [])]))
          (RequestResult.failure "HTTP 500: Internal Server Error" (some "/anime?genres=1")) =
        loadSimilarAnimeByGenre 20 [Json.obj [("mal_id", Json.num 1), ("name", Json.str "Action")]]
          (RequestResult.failure "HTTP 500: Internal Server Error" (some "/anime?genres=1"))) ∧
    (loadSimilarAnimeByGenre 20 []
        (RequestResult.failure "HTTP 500: Internal Server Error" (some "/anime?genres=1")) =
      RenderOutcome.staticFallback) ∧
    (loadSimilarAnimeByGenre 20 [Json.obj [("mal_id", Json.num 1), ("name", Json.str "Action")]]
        (RequestResult.failure "HTTP 500: Internal Server Error" (some "/anime/20/recommendations")) =
      RenderOutcome.staticFallback) ∧
    (∀ genreData,
      jGet genreData "data" = some (Json.arr [Json.obj [("mal_id", Json.num 20)]]) →
      (([Json.obj [("mal_id", Json.num 20)]].take 6).filter
        (fun a => jMalId a != some 20)).length = 0 →
      loadSimilarAnimeByGenre 20 [Json.obj [("mal_id", Json.num 1), ("name", Json.str "Action")]]
          (RequestResult.success genreData) =
        RenderOutcome.staticFallback) ∧
    fallbackAnime.length = 6 :=
  recommendations_fallback_chain 20
    [Json.obj [("mal_id", Json.num 1), ("name", Json.str "Action")]]
    (Json.obj [("data", Json.arr [])])
    (RequestResult.failure "HTTP 500: Internal Server Error" (some "/anime?genres=1"))
    "HTTP 500: Internal Server Error" (some "/anime/20/recommendations")
    [Json.obj [("mal_id", Json.num 20)]]
